import Mathlib

/-!
Shallow embedding of `scripts/generate_maps.py` (Geospatial-Analysis repo):
the schema-resolution heuristics, the point filtering/sampling pipeline
(`generate_sf_cluster_map`) and the choropleth join pipeline
(`generate_choropleth`), together with theorems settling the spec claims.

Tabular cell values are modelled as scalars (number, string, null); a record
is an association list from column name to value; a data frame carries the
schema (ordered column list) and the ordered rows.  Python exceptions are
modelled with `Except`; Python truthiness on optional strings (where both
`None` and the empty string are falsy) is modelled explicitly.
-/

namespace GenerateMaps

/-- A scalar cell value: number, string, or null (pandas NaN / JSON null). -/
inductive Value where
  | num (q : Rat)
  | str (s : String)
  | null
deriving DecidableEq

/-- A tabular record: a mapping from column name to scalar value. -/
def Record := List (String × Value)
deriving DecidableEq

/-- A tabular data set: the schema (ordered column names) plus the rows. -/
structure Frame where
  cols : List String
  rows : List Record
deriving DecidableEq

/-- A GeoJSON feature: its property mapping (`none` when the `properties`
member is absent; the code reads it with `.get('properties', {})`).  The
geometry payload is opaque to the core and not modelled. -/
structure Feature where
  properties : Option (List (String × Value))
deriving DecidableEq

/-- A GeoJSON-shaped document: `features` is `none` when the top-level
`features` member is missing (accessing it then raises `KeyError`). -/
structure GeoDoc where
  features : Option (List Feature)
deriving DecidableEq

/-- The Python exceptions the embedded pipelines can raise. -/
inductive PipelineError where
  | valueError (msg : String)
  | keyError (key : String)
  | indexError
deriving DecidableEq

/-- Python truthiness of an optional string: `None` and `''` are falsy. -/
def pyTruthyStr : Option String → Bool
  | none => false
  | some s => !s.isEmpty

/-- Python `a or b` on optional strings: `a` wins iff it is truthy. -/
def pyOrStr (a b : Option String) : Option String :=
  match a with
  | some s => if s.isEmpty then b else some s
  | none => b

/-- `row[c]` is present and non-null (pandas `dropna` keeps the row). -/
def nonNull (r : Record) (c : String) : Bool :=
  match List.lookup c r with
  | some Value.null => false
  | some _ => true
  | none => false

/-- The candidate column names for the latitude role, in priority order
(from `find_lat_lon_columns`). -/
def lat_candidates : List String :=
  ["lat", "latitude", "y", "y_coord", "ycoord", "Latitude", "LAT"]

/-- The candidate column names for the longitude role, in priority order
(from `find_lat_lon_columns`). -/
def lon_candidates : List String :=
  ["lon", "lng", "longitude", "x", "x_coord", "xcoord", "Longitude", "LON"]

/-- `find_lat_lon_columns(df)`: for each role, the first candidate (in
priority order) present among the frame columns, else `None`. -/
def find_lat_lon_columns (cols : List String) : Option String × Option String :=
  (lat_candidates.find? (fun c => cols.contains c),
   lon_candidates.find? (fun c => cols.contains c))

/-- Model of the external `pandas.DataFrame.sample(n, random_state)` contract:
a without-replacement selection of `n` rows that is a pure function of the
data, `n` and the seed when `random_state` is supplied, and that draws on
ambient entropy when `random_state` is `None`.  (The exact permutation drawn
by pandas is irrelevant to the claims; only the dependence structure is.) -/
def pandasSample (entropy : Nat) (randomState : Option Nat)
    (records : List Record) (n : Nat) : List Record :=
  let seed := match randomState with
    | some s => s
    | none => entropy
  (records.rotateLeft seed).take n

/-- Lines 59-60 of the source: sample down to `maxPoints` rows with the fixed
seed `random_state=1` only when the row count exceeds the cap. -/
def sample_step (entropy : Nat) (records : List Record) (maxPoints : Nat) :
    List Record :=
  if records.length > maxPoints then pandasSample entropy (some 1) records maxPoints
  else records

/-- The numeric values of column `c` over the rows (non-numeric cells are
skipped, as pandas skips NaN when taking a median). -/
def columnNums (rows : List Record) (c : String) : List Rat :=
  rows.filterMap (fun r =>
    match List.lookup c r with
    | some (Value.num q) => some q
    | _ => none)

/-- The median of a list of rationals; `none` on the empty list (pandas
returns NaN there). -/
def median (xs : List Rat) : Option Rat :=
  let s := xs.insertionSort (· ≤ ·)
  if s.length = 0 then none
  else if s.length % 2 = 1 then s.get? (s.length / 2)
  else
    match s.get? (s.length / 2 - 1), s.get? (s.length / 2) with
    | some a, some b => some ((a + b) / 2)
    | _, _ => none

/-- The exact message of the `ValueError` raised when the SF CSV has no
recognizable latitude/longitude columns. -/
def sf_schema_error_msg : String :=
  "Could not find latitude/longitude columns in the SF CSV. Expected columns like \x27lat\x27,\x27latitude\x27,\x27lng\x27,\x27lon\x27,\x27y\x27,\x27x\x27, etc."

/-- What `generate_sf_cluster_map` hands to the rendering collaborator:
the resolved columns, the retained point rows, and the centering medians
(`none` models an undefined / NaN median). -/
structure SfResult where
  latCol : String
  lonCol : String
  points : List Record
  centerLat : Option Rat
  centerLon : Option Rat
deriving DecidableEq

/-- The core of `generate_sf_cluster_map` (file reading and folium rendering
are external): resolve the coordinate columns, fail when either is missing,
drop rows with a null coordinate, sample above the cap, take the medians. -/
def generate_sf_cluster_map (entropy : Nat) (df : Frame)
    (maxPoints : Nat := 200000) : Except PipelineError SfResult :=
  let found := find_lat_lon_columns df.cols
  if !pyTruthyStr found.1 || !pyTruthyStr found.2 then
    Except.error (PipelineError.valueError sf_schema_error_msg)
  else
    let latCol := found.1.getD ""
    let lonCol := found.2.getD ""
    let pts := df.rows.filter (fun r => nonNull r latCol && nonNull r lonCol)
    let pts := sample_step entropy pts maxPoints
    Except.ok
      { latCol := latCol, lonCol := lonCol, points := pts,
        centerLat := median (columnNums pts latCol),
        centerLon := median (columnNums pts lonCol) }

/-- Python `str.lower()` as the code applies it to column names, modelled on
the character list (ASCII case folding). -/
def pyLower (s : String) : String :=
  String.mk (s.data.map Char.toLower)

/-- The lowercase names the value-column heuristic accepts (line 95). -/
def value_field_candidates : List String :=
  ["value", "count", "immigrants", "migration", "num"]

/-- The lowercase names the country-column heuristic accepts (line 96). -/
def country_field_candidates : List String :=
  ["country", "country_name", "origin", "iso_a3", "iso3", "iso"]

/-- Line 95 of the source: the caller override (Python `or`, so the empty
string is falsy) else the first frame column whose lowercase name is a
value-field candidate. -/
def resolve_migration_value_field (override : Option String)
    (cols : List String) : Option String :=
  pyOrStr override
    (cols.find? (fun c => value_field_candidates.contains (pyLower c)))

/-- Line 96 of the source: the caller override (Python `or`) else the first
frame column whose lowercase name is a country-field candidate. -/
def resolve_migration_country_field (override : Option String)
    (cols : List String) : Option String :=
  pyOrStr override
    (cols.find? (fun c => country_field_candidates.contains (pyLower c)))

/-- The property names the GeoJSON id-field heuristic scans, in the code's
order (line 108). -/
def geo_id_candidates : List String :=
  ["iso_a3", "ISO_A3", "iso3", "id", "ADM0_A3", "ISO3"]

/-- Lines 104-108 of the source: when the caller supplies `geojson_id_field`
it is used unchecked (`is None` test); otherwise the first feature's property
mapping is inspected and the first candidate present there is chosen.
Missing `features` member raises `KeyError`; an empty feature list raises
`IndexError`. -/
def resolve_geojson_id_field (override : Option String) (gj : GeoDoc) :
    Except PipelineError (Option String) :=
  match override with
  | some f => Except.ok (some f)
  | none =>
    match gj.features with
    | none => Except.error (PipelineError.keyError "features")
    | some [] => Except.error PipelineError.indexError
    | some (f :: _) =>
      let sampleProps := f.properties.getD []
      Except.ok (geo_id_candidates.find? (fun c => (List.lookup c sampleProps).isSome))

/-- Lines 111-116 of the source: the `key_on` locator.  `if geojson_id_field:`
is a truthiness test, so `None` and the empty string both fall back to
`feature.properties.name`. -/
def key_on_of (idField : Option String) : String :=
  match idField with
  | some f => if f.isEmpty then "feature.properties.name" else "feature.properties." ++ f
  | none => "feature.properties.name"

/-- The exact message of the `ValueError` raised when the migration CSV
columns cannot be identified. -/
def migration_schema_error_msg : String :=
  "Could not identify country or value columns in migration CSV. Please provide --migration-country-field and --migration-value-field flags."

/-- `row[c]` as pandas column selection sees it. -/
def lookupD (r : Record) (c : String) : Value :=
  (List.lookup c r).getD Value.null

/-- What `generate_choropleth` hands to the rendering collaborator: the
resolved tabular columns, the `key_on` locator, and the two-column
(`country_key`, `value`) projection in row order. -/
structure ChoroOutput where
  countryField : String
  valueField : String
  keyOn : String
  choroRows : List (Value × Value)
deriving DecidableEq

/-- The core of `generate_choropleth` (file reading and folium rendering are
external): resolve the value and country columns (heuristics overridable by
truthy caller strings), fail when either is unresolved, resolve the GeoJSON
id field, build the `key_on` locator, and project the two columns verbatim.
Selecting a column absent from the frame raises `KeyError` (pandas
`mdf[[c, v]]`). -/
def generate_choropleth (gj : GeoDoc) (mdf : Frame)
    (geojson_id_field migration_country_field migration_value_field :
      Option String) : Except PipelineError ChoroOutput :=
  let vf? := resolve_migration_value_field migration_value_field mdf.cols
  let cf? := resolve_migration_country_field migration_country_field mdf.cols
  if cf?.isNone || vf?.isNone then
    Except.error (PipelineError.valueError migration_schema_error_msg)
  else
    let cf := cf?.getD ""
    let vf := vf?.getD ""
    match resolve_geojson_id_field geojson_id_field gj with
    | Except.error e => Except.error e
    | Except.ok idField =>
      if !mdf.cols.contains cf then Except.error (PipelineError.keyError cf)
      else if !mdf.cols.contains vf then Except.error (PipelineError.keyError vf)
      else
        Except.ok
          { countryField := cf, valueField := vf, keyOn := key_on_of idField,
            choroRows := mdf.rows.map (fun r => (lookupD r cf, lookupD r vf)) }

/-- Modelled contract of the rendering collaborator's fallback join: a
tabular key matches a feature exactly when the feature's `name` property
equals the key as a string, compared verbatim. -/
def name_fallback_matches (key : String) (f : Feature) : Bool :=
  (f.properties.getD []).lookup "name" == some (Value.str key)

/-- Claim C6: point sampling is deterministic — with the seed fixed to
`random_state=1`, the retained subset (and the whole point pipeline result)
does not depend on the ambient entropy, so two runs on the same filtered
record set with the same cap agree. -/
theorem c6_sampling_deterministic :
    (∀ e1 e2 records maxPoints,
      sample_step e1 records maxPoints = sample_step e2 records maxPoints)
    ∧ (∀ e1 e2 df maxPoints,
      generate_sf_cluster_map e1 df maxPoints = generate_sf_cluster_map e2 df maxPoints) :=
  ⟨fun _ _ _ _ => rfl, fun _ _ _ _ => rfl⟩

/-- Claim C9: when the filtered record count is at most `max_points`, the
sampling step is the identity on the filtered set. -/
theorem c9_sampling_noop_under_cap (e : Nat) (records : List Record)
    (maxPoints : Nat) (h : records.length ≤ maxPoints) :
    sample_step e records maxPoints = records := by
  unfold sample_step
  rw [if_neg (by omega)]

/-- Witness for C9 at a concrete one-record set and cap 5. -/
theorem c9_sampling_noop_under_cap_witness :
    sample_step 0 [[("lat", Value.num 1)]] 5 = [[("lat", Value.num 1)]] :=
  c9_sampling_noop_under_cap 0 [[("lat", Value.num 1)]] 5 (by decide)

/-- Claim C10: the `migration_country_field` / `migration_value_field`
overrides are tested with Python `or` (truthiness), so the empty string
behaves exactly like no override: the heuristic runs and the empty string is
never used as a column name. -/
theorem c10_empty_override_like_none :
    (∀ cols, resolve_migration_value_field (some "") cols
      = resolve_migration_value_field none cols)
    ∧ (∀ cols, resolve_migration_country_field (some "") cols
      = resolve_migration_country_field none cols)
    ∧ (∀ gj mdf o, generate_choropleth gj mdf o (some "") (some "")
      = generate_choropleth gj mdf o none none) :=
  ⟨fun _ => rfl, fun _ => rfl, fun _ _ _ => rfl⟩

/-- Claim C2 (code evaluation at the failing input): with schema
`["lat","lon"]` and a single row whose coordinates are both null, every row
is filtered out, yet the pipeline returns success with an empty point set and
undefined (NaN) centering medians — no empty-dataset error is raised. -/
theorem c2_empty_after_filter_succeeds :
    generate_sf_cluster_map 0
      ⟨["lat", "lon"], [[("lat", Value.null), ("lon", Value.null)]]⟩ 200000
      = Except.ok ⟨"lat", "lon", [], none, none⟩ := by rfl

/-- Claim C5 counterexample: a geometry document missing the top-level
`features` member does not make the join pipeline fail when the caller
supplies `geojson_id_field` — the reconciler never inspects the feature list
and the core succeeds. -/
theorem c5_counterexample_override_skips_check :
    generate_choropleth ⟨none⟩ ⟨["country", "value"], []⟩ (some "iso_a3") none none
      = Except.ok ⟨"country", "value", "feature.properties.iso_a3", []⟩ := by rfl

/-- Character-list test: `hay` starts with `needle`. -/
def startsWithChars : List Char → List Char → Bool
  | _, [] => true
  | [], _ :: _ => false
  | a :: as, b :: bs => a == b && startsWithChars as bs

/-- Character-list test: `needle` occurs contiguously inside `hay`. -/
def containsChars : List Char → List Char → Bool
  | [], needle => startsWithChars [] needle
  | a :: as, needle => startsWithChars (a :: as) needle || containsChars as needle

/-- Claim C1 counterexample: the code's id-property priority list does not
put the generic `id` last — it ends in `ISO3`, and on a first feature whose
properties contain both `id` and `ADM0_A3` the reconciler selects `id`
(under the claimed ordering, `ADM0_A3` would have been selected). -/
theorem c1_counterexample_id_not_last :
    resolve_geojson_id_field none
        ⟨some [⟨some [("id", Value.num 1), ("ADM0_A3", Value.str "USA")]⟩]⟩
      = Except.ok (some "id")
    ∧ geo_id_candidates.getLast? = some "ISO3"
    ∧ ("ISO3" : String) ≠ "id" :=
  ⟨rfl, rfl, by decide⟩

/-- Claim C1 (amended): with no caller override the reconciler inspects only
the first feature's properties and selects the first matching name from the
priority list `iso_a3, ISO_A3, iso3, id, ADM0_A3, ISO3` (ISO-3 spellings
first, but the generic `id` sits fourth, before `ADM0_A3` and `ISO3`); for
first-feature properties `{ADM0_A3: USA, name: United States}` it selects
`ADM0_A3` and produces the locator `feature.properties.ADM0_A3`. -/
theorem c1_reconciler_first_match :
    (∀ o f rest rest', resolve_geojson_id_field o ⟨some (f :: rest)⟩
      = resolve_geojson_id_field o ⟨some (f :: rest')⟩)
    ∧ (∀ props rest c,
        resolve_geojson_id_field none ⟨some (⟨some props⟩ :: rest)⟩
          = Except.ok (some c) →
        ∃ pre post, geo_id_candidates = pre ++ c :: post
          ∧ (List.lookup c props).isSome = true
          ∧ ∀ c' ∈ pre, (List.lookup c' props).isSome = false)
    ∧ generate_choropleth
        ⟨some [⟨some [("ADM0_A3", Value.str "USA"),
                      ("name", Value.str "United States")]⟩]⟩
        ⟨["country", "value"], []⟩ none none none
      = Except.ok ⟨"country", "value", "feature.properties.ADM0_A3", []⟩ := by
  refine ⟨fun o f rest rest' => ?_, fun props rest c h => ?_, rfl⟩
  · cases o <;> rfl
  · simp only [resolve_geojson_id_field, Option.getD_some, Except.ok.injEq] at h
    rw [List.find?_eq_some] at h
    obtain ⟨hc, pre, post, heq, hall⟩ := h
    exact ⟨pre, post, heq, hc, fun c' hm => by simpa using hall c' hm⟩

/-- Witness for C1 (amended), applying the first-match property at the
spec's example properties. -/
theorem c1_reconciler_first_match_witness :
    ∃ pre post, geo_id_candidates = pre ++ "ADM0_A3" :: post
      ∧ (List.lookup "ADM0_A3"
          [("ADM0_A3", Value.str "USA"), ("name", Value.str "United States")]).isSome = true
      ∧ ∀ c' ∈ pre, (List.lookup c'
          [("ADM0_A3", Value.str "USA"), ("name", Value.str "United States")]).isSome = false :=
  c1_reconciler_first_match.2.1
    [("ADM0_A3", Value.str "USA"), ("name", Value.str "United States")] [] "ADM0_A3" rfl

/-- Claim C4 counterexample: the choropleth value-column heuristic scans the
schema columns in schema order against an unordered candidate set, so on
schema `["count", "value"]` it resolves to `count` even though `value`
precedes `count` in the candidate tuple and is present in the schema. -/
theorem c4_counterexample_schema_order_wins :
    resolve_migration_value_field none ["count", "value"] = some "count"
    ∧ ("value" : String) ∈ ["count", "value"]
    ∧ value_field_candidates.indexOf "value" < value_field_candidates.indexOf "count" :=
  ⟨rfl, by decide, by decide⟩

/-- Claim C4 (amended): `find_lat_lon_columns` assigns each coordinate role
the first candidate in the role's priority order present in the schema,
never a later one; the choropleth country/value heuristics instead assign
the first *schema column* (in schema order) whose lowercased name is in the
candidate set. -/
theorem c4_first_match_resolution :
    (∀ cols c, (find_lat_lon_columns cols).1 = some c →
      ∃ pre post, lat_candidates = pre ++ c :: post
        ∧ cols.contains c = true
        ∧ ∀ c' ∈ pre, cols.contains c' = false)
    ∧ (∀ cols c, (find_lat_lon_columns cols).2 = some c →
      ∃ pre post, lon_candidates = pre ++ c :: post
        ∧ cols.contains c = true
        ∧ ∀ c' ∈ pre, cols.contains c' = false)
    ∧ (∀ cols c, resolve_migration_value_field none cols = some c →
      ∃ pre post, cols = pre ++ c :: post
        ∧ value_field_candidates.contains (pyLower c) = true
        ∧ ∀ c' ∈ pre, value_field_candidates.contains (pyLower c') = false)
    ∧ (∀ cols c, resolve_migration_country_field none cols = some c →
      ∃ pre post, cols = pre ++ c :: post
        ∧ country_field_candidates.contains (pyLower c) = true
        ∧ ∀ c' ∈ pre, country_field_candidates.contains (pyLower c') = false) := by
  refine ⟨fun cols c h => ?_, fun cols c h => ?_, fun cols c h => ?_, fun cols c h => ?_⟩
  all_goals
    first
    | (simp only [find_lat_lon_columns] at h
       rw [List.find?_eq_some] at h
       obtain ⟨hc, pre, post, heq, hall⟩ := h
       exact ⟨pre, post, heq, hc, fun c' hm => by simpa using hall c' hm⟩)
    | (simp only [resolve_migration_value_field, resolve_migration_country_field,
        pyOrStr] at h
       rw [List.find?_eq_some] at h
       obtain ⟨hc, pre, post, heq, hall⟩ := h
       exact ⟨pre, post, heq, hc, fun c' hm => by simpa using hall c' hm⟩)

/-- Witness for C4 (amended), applying the latitude conjunct at the schema
`["Latitude"]`. -/
theorem c4_first_match_resolution_witness :
    ∃ pre post, lat_candidates = pre ++ "Latitude" :: post
      ∧ (["Latitude"] : List String).contains "Latitude" = true
      ∧ ∀ c' ∈ pre, (["Latitude"] : List String).contains c' = false :=
  c4_first_match_resolution.1 ["Latitude"] "Latitude" rfl

/-- Claim C3 counterexample: on schema `["colA", "colB"]` (no coordinate
candidates) the point pipeline raises `ValueError`, but the message is a
fixed string that does not list the schema actually present — neither
`colA` nor `colB` occurs in it. -/
theorem c3_counterexample_message_omits_schema :
    generate_sf_cluster_map 0 ⟨["colA", "colB"], []⟩ 200000
      = Except.error (PipelineError.valueError sf_schema_error_msg)
    ∧ containsChars sf_schema_error_msg.data "colA".data = false
    ∧ containsChars sf_schema_error_msg.data "colB".data = false :=
  ⟨rfl, by decide, by decide⟩

/-- Claim C3 (amended): for every schema missing every candidate of any one
required role — latitude or longitude for the point pipeline, country or
value for the join pipeline — the pipeline fails with `ValueError` and does
not proceed, but the message is a fixed string naming the roles generically;
it does not list the schema actually present. -/
theorem c3_unresolved_role_fails :
    (∀ df maxP e, (∀ c ∈ lat_candidates, df.cols.contains c = false) →
      generate_sf_cluster_map e df maxP
        = Except.error (PipelineError.valueError sf_schema_error_msg))
    ∧ (∀ df maxP e, (∀ c ∈ lon_candidates, df.cols.contains c = false) →
      generate_sf_cluster_map e df maxP
        = Except.error (PipelineError.valueError sf_schema_error_msg))
    ∧ (∀ gj mdf gid, (∀ c ∈ mdf.cols,
        country_field_candidates.contains (pyLower c) = false) →
      generate_choropleth gj mdf gid none none
        = Except.error (PipelineError.valueError migration_schema_error_msg))
    ∧ (∀ gj mdf gid, (∀ c ∈ mdf.cols,
        value_field_candidates.contains (pyLower c) = false) →
      generate_choropleth gj mdf gid none none
        = Except.error (PipelineError.valueError migration_schema_error_msg)) := by
  refine ⟨?_, ?_, ?_, ?_⟩
  · intro df maxP e h
    have hf : lat_candidates.find? (fun c => df.cols.contains c) = none :=
      List.find?_eq_none.mpr (fun c hm => by simpa using h c hm)
    simp only [generate_sf_cluster_map, find_lat_lon_columns]
    rw [hf]
    simp [pyTruthyStr]
  · intro df maxP e h
    have hf : lon_candidates.find? (fun c => df.cols.contains c) = none :=
      List.find?_eq_none.mpr (fun c hm => by simpa using h c hm)
    simp only [generate_sf_cluster_map, find_lat_lon_columns]
    rw [hf]
    simp [pyTruthyStr]
  · intro gj mdf gid h
    have hf : mdf.cols.find?
        (fun c => country_field_candidates.contains (pyLower c)) = none :=
      List.find?_eq_none.mpr (fun c hm => by simpa using h c hm)
    simp only [generate_choropleth, resolve_migration_country_field, pyOrStr]
    rw [hf]
    simp
  · intro gj mdf gid h
    have hf : mdf.cols.find?
        (fun c => value_field_candidates.contains (pyLower c)) = none :=
      List.find?_eq_none.mpr (fun c hm => by simpa using h c hm)
    simp only [generate_choropleth, resolve_migration_value_field, pyOrStr]
    rw [hf]
    simp

/-- Witness for C3 (amended), applying each conjunct at a schema missing
exactly the candidates of that role: latitude at `["colA"]`, longitude at
`["lat", "colA"]`, country at `["value", "colA"]`, value at
`["country", "colA"]`. -/
theorem c3_unresolved_role_fails_witness :
    generate_sf_cluster_map 0 ⟨["colA"], []⟩ 200000
      = Except.error (PipelineError.valueError sf_schema_error_msg)
    ∧ generate_sf_cluster_map 0 ⟨["lat", "colA"], []⟩ 200000
      = Except.error (PipelineError.valueError sf_schema_error_msg)
    ∧ generate_choropleth ⟨none⟩ ⟨["value", "colA"], []⟩ none none none
      = Except.error (PipelineError.valueError migration_schema_error_msg)
    ∧ generate_choropleth ⟨none⟩ ⟨["country", "colA"], []⟩ none none none
      = Except.error (PipelineError.valueError migration_schema_error_msg) :=
  ⟨c3_unresolved_role_fails.1 ⟨["colA"], []⟩ 200000 0 (by decide),
   c3_unresolved_role_fails.2.1 ⟨["lat", "colA"], []⟩ 200000 0 (by decide),
   c3_unresolved_role_fails.2.2.1 ⟨none⟩ ⟨["value", "colA"], []⟩ none (by decide),
   c3_unresolved_role_fails.2.2.2 ⟨none⟩ ⟨["country", "colA"], []⟩ none (by decide)⟩

/-- Claim C5 (amended): when the caller supplies no `geojson_id_field`
override, a geometry document missing the top-level `features` member makes
the join pipeline fail with `KeyError` (the spec's `MalformedGeometryError`);
with an override the feature list is never inspected (see the
counterexample). -/
theorem c5_missing_features_fails :
    ∀ mdf (cf vf : String),
      resolve_migration_country_field none mdf.cols = some cf →
      resolve_migration_value_field none mdf.cols = some vf →
      generate_choropleth ⟨none⟩ mdf none none none
        = Except.error (PipelineError.keyError "features") := by
  intro mdf cf vf h1 h2
  simp [generate_choropleth, h1, h2, resolve_geojson_id_field]

/-- Witness for C5 (amended) at the schema `["country", "value"]`. -/
theorem c5_missing_features_fails_witness :
    generate_choropleth ⟨none⟩ ⟨["country", "value"], []⟩ none none none
      = Except.error (PipelineError.keyError "features") :=
  c5_missing_features_fails ⟨["country", "value"], []⟩ "country" "value" rfl rfl

/-- Claim C7: the resolver never assigns the same column to two distinct
roles — the latitude and longitude candidate lists are disjoint, as are the
lowercase country and value candidate sets, so the two resolved columns of
either pipeline always differ. -/
theorem c7_roles_never_share_column :
    (∀ cols latC lonC, find_lat_lon_columns cols = (some latC, some lonC) →
      latC ≠ lonC)
    ∧ (∀ cols cf vf, resolve_migration_country_field none cols = some cf →
      resolve_migration_value_field none cols = some vf → cf ≠ vf) := by
  constructor
  · intro cols latC lonC h
    simp only [find_lat_lon_columns, Prod.mk.injEq] at h
    obtain ⟨h1, h2⟩ := h
    have m1 := List.mem_of_find?_eq_some h1
    have m2 := List.mem_of_find?_eq_some h2
    intro e
    subst e
    simp only [lat_candidates, List.mem_cons, List.mem_singleton,
      List.not_mem_nil, or_false] at m1
    rcases m1 with rfl | rfl | rfl | rfl | rfl | rfl | rfl <;>
      simp [lon_candidates] at m2
  · intro cols cf vf h1 h2
    have p1 := List.find?_some
      (show (cols.find? (fun c => country_field_candidates.contains (pyLower c)))
          = some cf from h1)
    have p2 := List.find?_some
      (show (cols.find? (fun c => value_field_candidates.contains (pyLower c)))
          = some vf from h2)
    intro e
    subst e
    simp only [country_field_candidates] at p1
    simp only [value_field_candidates] at p2
    simp at p1 p2
    rcases p1 with h | h | h | h | h | h <;> rw [h] at p2 <;> simp at p2

/-- Witness for C7 at the schema `["lat", "lon"]` (point roles) — the two
resolved columns differ. -/
theorem c7_roles_never_share_column_witness :
    ("lat" : String) ≠ "lon" :=
  c7_roles_never_share_column.1 ["lat", "lon"] "lat" "lon" rfl

/-- Claim C8: when no name in the id priority list appears in the first
feature's properties, the reconciler resolves no id field and the pipeline
falls back to the locator `feature.properties.name`; the tabular key values
are projected verbatim (no case folding or other normalization), and under
the rendering collaborator's matching contract a key matches only a feature
whose `name` property equals it exactly. -/
theorem c8_name_fallback_no_normalization :
    (∀ props rest,
      geo_id_candidates.all (fun c => (List.lookup c props).isNone) = true →
      resolve_geojson_id_field none ⟨some (⟨some props⟩ :: rest)⟩ = Except.ok none)
    ∧ generate_choropleth ⟨some [⟨some [("pop", Value.num 123)]⟩]⟩
        ⟨["country", "value"],
         [[("country", Value.str "Germany"), ("value", Value.num 5)],
          [("country", Value.str "gErMaNy"), ("value", Value.num 7)]]⟩ none none none
      = Except.ok ⟨"country", "value", "feature.properties.name",
          [(Value.str "Germany", Value.num 5), (Value.str "gErMaNy", Value.num 7)]⟩
    ∧ name_fallback_matches "Germany" ⟨some [("name", Value.str "Germany")]⟩ = true
    ∧ name_fallback_matches "Germany" ⟨some [("name", Value.str "germany")]⟩ = false
    ∧ name_fallback_matches "Germany" ⟨some [("name", Value.str "GERMANY")]⟩ = false := by
  refine ⟨fun props rest h => ?_, by rfl, by decide, by decide, by decide⟩
  have hf : geo_id_candidates.find?
      (fun c => (List.lookup c props).isSome) = none :=
    List.find?_eq_none.mpr (fun c hm => by
      have hn := List.all_eq_true.mp h c hm
      cases hl : List.lookup c props <;> simp_all)
  simp only [resolve_geojson_id_field, Option.getD_some]
  rw [hf]

/-- Witness for C8 at the spec's example first-feature properties
`{pop: 123}`: no id field resolves. -/
theorem c8_name_fallback_no_normalization_witness :
    resolve_geojson_id_field none ⟨some [⟨some [("pop", Value.num 123)]⟩]⟩
      = Except.ok none :=
  c8_name_fallback_no_normalization.1 [("pop", Value.num 123)] [] (by decide)

end GenerateMaps
